import Mathlib

/-!
Shallow embedding of the queue/worker core of src/app.py (a single-process
Reddit comment posting server) and verification of its specified properties.

Modelling conventions:
- Python dict-shaped comments become the structure Comment; fields read with
  .get(key, "") in the source become plain String fields where the missing
  case is the empty string.
- Impure effects are oracles passed explicitly: the HTTP result of one posting
  attempt is a Bool, random.uniform draws come from a stream of rationals in
  the unit interval, uuid.uuid4 is a stream of strings, the clock is a stream
  of naturals.
- Machine integers do not overflow in the source (Python ints), so counters
  are Nat.
-/

/-- One queued comment task. Mirrors the JSON dict handled by app.py:
url, ai_comment, title, subreddit, plus the id assigned at enqueue time. -/
structure Comment where
  url : String
  ai_comment : String
  title : String
  subreddit : String
  id : String
  deriving Repr, DecidableEq

/-- One entry of posting_history, as built in _worker_loop and keepalive:
id, subreddit, title truncated to 100 characters, success flag, timestamp. -/
structure ResultRecord where
  id : String
  subreddit : String
  title : String
  success : Bool
  posted_at : Nat
  deriving Repr, DecidableEq

/-- MAX_HISTORY = 500 in app.py. -/
def MAX_HISTORY : Nat := 500

/-- The history update both consumers perform under history_lock:
posting_history.append(result); if len(posting_history) > MAX_HISTORY:
posting_history.pop(0). -/
def recordResult (history : List ResultRecord) (r : ResultRecord) : List ResultRecord :=
  let h := history ++ [r]
  if MAX_HISTORY < h.length then h.tail else h

/-- The wait_range dict: min_wait and max_wait in seconds. -/
structure WaitRange where
  min_wait : ℚ
  max_wait : ℚ
  deriving Repr, DecidableEq

/-- random.uniform(a, b) = a + u * (b - a) where u is the raw unit draw. -/
def uniformDraw (u a b : ℚ) : ℚ := a + u * (b - a)

/-- The post-id scan in post_comment_to_reddit: for i, part in
enumerate(parts): if part == "comments" and i + 1 < len(parts):
post_id = parts[i + 1]; break. -/
def findCommentsId : List String → Option String
  | [] => none
  | [_] => none
  | p :: q :: rest => if p = "comments" then some q else findCommentsId (q :: rest)

/-- Python truthiness of an optional string: None and "" are falsy. -/
def strTruthy : Option String → Bool
  | none => false
  | some s => !(s = "")

/-- Python str.rstrip("/"): drop every trailing slash. -/
def pyRstripSlash (s : String) : String :=
  String.mk ((s.data.reverse.dropWhile (fun ch => ch == '/')).reverse)

/-- Helper for Python str.split("/"): walk the characters, cutting at every
slash; acc holds the reversed current segment. -/
def pySplitSlashAux : List Char → List Char → List String
  | [], acc => [String.mk acc.reverse]
  | ch :: rest, acc =>
    if ch == '/' then String.mk acc.reverse :: pySplitSlashAux rest []
    else pySplitSlashAux rest (ch :: acc)

/-- Python str.split("/"): the empty string yields one empty segment, and
consecutive slashes yield empty segments, as in Python. -/
def pySplitSlash (s : String) : List String := pySplitSlashAux s.data []

/-- Post-id extraction from the target URL in post_comment_to_reddit:
strip trailing slashes, split the URL on "/", take the segment after "comments", falling
back to parts[-3] when that fails, and give up when still falsy. -/
def extractPostId (post_url : String) : Option String :=
  let parts := pySplitSlash (pyRstripSlash post_url)
  let pid0 := findCommentsId parts
  let pid1 := if strTruthy pid0 then pid0
    else if 3 ≤ parts.length then some (parts.getD (parts.length - 3) "") else none
  if strTruthy pid1 then pid1 else none

/-- Outcome of one call to post_comment_to_reddit: the returned boolean and
whether the external HTTP request was issued at all. -/
structure PostOutcome where
  success : Bool
  attempted : Bool
  deriving Repr, DecidableEq

/-- post_comment_to_reddit: returns False without any HTTP request when url
or ai_comment is missing or empty, or when no post id can be extracted;
otherwise issues the request, whose result (200 or not, or an exception
coerced to False) is the oracle netResult. -/
def post_comment_to_reddit (comment : Comment) (netResult : Bool) : PostOutcome :=
  if comment.url = "" || comment.ai_comment = "" then { success := false, attempted := false }
  else match extractPostId comment.url with
    | none => { success := false, attempted := false }
    | some _ => { success := netResult, attempted := true }

/-- The module-level mutable state of app.py that the core operates on:
the pending deque, the bounded history, the three aggregate counters, the
currently-posting marker, the session credentials and the wait range. -/
structure ServerState where
  comment_queue : List Comment
  posting_history : List ResultRecord
  total_received : Nat
  total_success : Nat
  total_fail : Nat
  currently_posting : Option Comment
  cookies : List (String × String)
  csrf_token : String
  wait_range : WaitRange
  deriving Repr, DecidableEq

/-- The parsed JSON body accepted by POST /api/comments. -/
structure CommentsRequest where
  comments : List Comment
  cookies : List (String × String)
  csrf_token : String
  min_wait : ℚ
  max_wait : ℚ
  deriving Repr, DecidableEq

/-- The 400 rejections of receive_comments. -/
inductive ApiError where
  | noComments
  | missingCreds
  deriving Repr, DecidableEq

/-- The enqueue loop of receive_comments: for c in comments, set
c["id"] = str(uuid.uuid4())[:8] and collect both the tagged comment and the
id, consuming one uuid draw per comment starting at position pos. -/
def assignIds (uuid : Nat → String) (pos : Nat) : List Comment → List Comment × List String
  | [] => ([], [])
  | c :: cs =>
    let cid := (uuid pos).take 8
    let rest := assignIds uuid (pos + 1) cs
    ({ c with id := cid } :: rest.1, cid :: rest.2)

/-- receive_comments (POST /api/comments): reject an empty batch or missing
credentials with a 400, otherwise overwrite the session credentials and wait
range, tag and append every comment to the queue tail, bump total_received
by the batch size, and answer with the assigned ids and the queue size.
The state is returned in both cases; on a rejection it is untouched. -/
def receive_comments (s : ServerState) (req : CommentsRequest) (uuid : Nat → String)
    (pos : Nat) : ServerState × Except ApiError (List String × Nat) :=
  if req.comments = [] then (s, .error .noComments)
  else if req.cookies = [] || req.csrf_token = "" then (s, .error .missingCreds)
  else
    let s1 := { s with cookies := req.cookies, csrf_token := req.csrf_token,
                       wait_range := { min_wait := req.min_wait, max_wait := req.max_wait } }
    let tagged := assignIds uuid pos req.comments
    let s2 := { s1 with comment_queue := s1.comment_queue ++ tagged.1,
                        total_received := s1.total_received + req.comments.length }
    (s2, .ok (tagged.2, s2.comment_queue.length))

/-- The guarded popleft both consumers use: with queue_lock, if
comment_queue: comment = comment_queue.popleft(). -/
def dequeueOne : List Comment → Option Comment × List Comment
  | [] => (none, [])
  | c :: rest => (some c, rest)

/-- What one loop iteration of _worker_loop makes observable for one task:
the id of the comment it posted, the pacing sleep taken before posting (none
for the first task of the session), the executor result and whether the
executor really issued an HTTP request. -/
structure StepEvent where
  commentId : String
  preDelay : Option ℚ
  success : Bool
  attemptedPost : Bool
  deriving Repr, DecidableEq

/-- The draining part of _worker_loop on a fixed queue with no concurrent
producers: pop the head; read cookies and the wait range fresh under
session_lock (the oracle paramsAt gives the wait range the globals hold at
iteration k); unless this is the first task of the session, sleep
random.uniform(min_w, max_w); set and clear currently_posting around the
executor call; update total_success or total_fail; append the result record
with the title cut to 100 characters and apply the history bound. -/
def workerDrainAux (paramsAt : Nat → WaitRange) (net : Nat → Bool) (rand : Nat → ℚ)
    (clock : Nat → Nat) : List Comment → Nat → Bool → ServerState →
    ServerState × List StepEvent
  | [], _, _, s => (s, [])
  | c :: rest, k, is_first, s =>
    let w := paramsAt k
    let delay : Option ℚ :=
      if is_first then none else some (uniformDraw (rand k) w.min_wait w.max_wait)
    let outcome := post_comment_to_reddit c (net k)
    let r : ResultRecord := { id := c.id, subreddit := c.subreddit,
                              title := c.title.take 100, success := outcome.success,
                              posted_at := clock k }
    let s2 := { s with comment_queue := rest, currently_posting := none,
                       total_success := s.total_success + (if outcome.success then 1 else 0),
                       total_fail := s.total_fail + (if outcome.success then 0 else 1),
                       posting_history := recordResult s.posting_history r }
    let res := workerDrainAux paramsAt net rand clock rest (k + 1) false s2
    (res.1, { commentId := c.id, preDelay := delay, success := outcome.success,
              attemptedPost := outcome.attempted } :: res.2)

/-- A full Worker session over the current queue, starting with
is_first = True as _worker_loop does. -/
def workerDrain (paramsAt : Nat → WaitRange) (net : Nat → Bool) (rand : Nat → ℚ)
    (clock : Nat → Nat) (s : ServerState) : ServerState × List StepEvent :=
  workerDrainAux paramsAt net rand clock s.comment_queue 0 true s

/-- The retry loop of keepalive for one dequeued comment: success = False;
for attempt in range(1, 4): success = post(...); if success: break. The
argument attemptResult gives the executor result of the attempt with that
1-based index; the result pairs the final success flag with the number of
executor invocations made. -/
def retryAux (attemptResult : Nat → Bool) (calls : Nat) : List Nat → Bool × Nat
  | [] => (false, calls)
  | a :: rest =>
    if attemptResult a then (true, calls + 1) else retryAux attemptResult (calls + 1) rest

/-- The executor result keepalive sees on its a-th call for one comment:
post_comment_to_reddit on that comment with the HTTP oracle of attempt a. -/
def keepaliveAttempt (c : Comment) (net : Nat → Bool) (a : Nat) : Bool :=
  (post_comment_to_reddit c (net a)).success

/-- Up to 3 executor attempts for one comment on the keepalive path
(range(1, 4)), stopping at the first success. -/
def keepaliveRetry (c : Comment) (net : Nat → Bool) : Bool × Nat :=
  retryAux (keepaliveAttempt c net) 0 (List.range' 1 3)

/-- One keepalive task: retry up to 3 times, then update the counters and the
bounded history exactly as the worker does; returns the new state together
with the final success flag and the number of executor invocations. -/
def keepaliveProcessOne (s : ServerState) (c : Comment) (net : Nat → Bool)
    (t : Nat) : ServerState × Bool × Nat :=
  let res := keepaliveRetry c net
  let r : ResultRecord := { id := c.id, subreddit := c.subreddit,
                            title := c.title.take 100, success := res.1,
                            posted_at := t }
  ({ s with comment_queue := s.comment_queue, currently_posting := none,
            total_success := s.total_success + (if res.1 then 1 else 0),
            total_fail := s.total_fail + (if res.1 then 0 else 1),
            posting_history := recordResult s.posting_history r }, res.1, res.2)

/-- The drain loop of keepalive over a fixed queue: popleft until empty,
processing each comment with keepaliveProcessOne; netOf k is the HTTP oracle
for the k-th dequeued task; returns the final state, the ids in processing
order, and the posted and failed counters of the JSON reply. -/
def keepaliveDrainAux (netOf : Nat → Nat → Bool) (clock : Nat → Nat) :
    List Comment → Nat → ServerState → Nat → Nat →
    ServerState × List String × Nat × Nat
  | [], _, s, posted, failed => (s, [], posted, failed)
  | c :: rest, k, s, posted, failed =>
    let step := keepaliveProcessOne { s with comment_queue := rest } c (netOf k) (clock k)
    let res := keepaliveDrainAux netOf clock rest (k + 1) step.1
      (posted + (if step.2.1 then 1 else 0)) (failed + (if step.2.1 then 0 else 1))
    (res.1, c.id :: res.2.1, res.2.2)

/-- GET /api/keepalive: snapshot the credentials once, then drain the whole
queue with per-task retries. -/
def keepaliveDrain (netOf : Nat → Nat → Bool) (clock : Nat → Nat) (s : ServerState) :
    ServerState × List String × Nat × Nat :=
  keepaliveDrainAux netOf clock s.comment_queue 0 s 0 0

/-- The two globals the Lifecycle Controller touches: whether worker_thread
is alive, and the worker_running keep-alive flag. app.py initialises them to
no thread and False. worker_running is assigned exactly once in the whole
program: _ensure_worker sets it to True; _worker_loop declares it global but
never writes it, and nothing ever resets it to False. -/
structure LifecycleState where
  worker_alive : Bool
  worker_running : Bool
  deriving Repr, DecidableEq

/-- _ensure_worker run without interleaving: if worker_thread is alive,
return; else set worker_running = True and start a new worker thread. -/
def ensure_worker (s : LifecycleState) : LifecycleState :=
  if s.worker_alive then s else { worker_alive := true, worker_running := true }

/-- The exit test of the idle branch of _worker_loop, evaluated under
queue_lock after the one-second sleep: break when the queue is still empty
and worker_running is False. -/
def workerIdleCheck (queue : List Comment) (worker_running : Bool) : Bool :=
  queue.isEmpty && !worker_running

/-- The idle branch iterated n times with the queue staying empty and the
worker_running flag frozen at its current value (nothing in app.py writes it
after _ensure_worker): true exactly when the worker has exited its loop
within n one-second grace intervals. -/
def workerIdleRun (worker_running : Bool) : Nat → Bool
  | 0 => false
  | n + 1 => if workerIdleCheck [] worker_running then true else workerIdleRun worker_running n

/-- Program counter of one thread running _ensure_worker: 0 before the
aliveness check, 1 between the check and the spawn, 2 done. observedAlive
remembers what the check read. -/
structure EwThread where
  pc : Nat
  observedAlive : Bool
  deriving Repr, DecidableEq

/-- Shared lifecycle view for the interleaving model: whether some worker
thread is alive and how many live worker threads exist. -/
structure EwShared where
  alive : Bool
  liveCount : Nat
  deriving Repr, DecidableEq

/-- One atomic action of a thread inside _ensure_worker. The body holds no
lock, so the aliveness check and the spawn are separate atomic steps: at
pc 0 the thread reads worker_thread.is_alive(); at pc 1 it returns if the
check saw a live worker, else it sets the flag, creates the thread and
starts it, raising the live count. -/
def ewStep (g : EwShared) (t : EwThread) : EwShared × EwThread :=
  match t.pc with
  | 0 => (g, { pc := 1, observedAlive := g.alive })
  | 1 => if t.observedAlive then (g, { t with pc := 2 })
         else ({ alive := true, liveCount := g.liveCount + 1 }, { t with pc := 2 })
  | _ => (g, t)

/-- Two request threads T1 and T2 each executing _ensure_worker, driven by a
schedule: true picks T1 for the next atomic step, false picks T2. -/
structure EwWorld where
  shared : EwShared
  t1 : EwThread
  t2 : EwThread
  deriving Repr, DecidableEq

/-- Run a schedule of atomic steps over the two-thread world. -/
def ewRun : List Bool → EwWorld → EwWorld
  | [], w => w
  | b :: rest, w =>
    if b then
      let r := ewStep w.shared w.t1
      ewRun rest { w with shared := r.1, t1 := r.2 }
    else
      let r := ewStep w.shared w.t2
      ewRun rest { w with shared := r.1, t2 := r.2 }

/-- Both threads poised to call _ensure_worker while no worker is alive. -/
def ewInit : EwWorld :=
  { shared := { alive := false, liveCount := 0 },
    t1 := { pc := 0, observedAlive := false },
    t2 := { pc := 0, observedAlive := false } }

/-- Serialized lifecycle calls for the amended claim: one whole
_ensure_worker call as a single atomic step over (alive, live count). -/
def ensureAtomic (g : EwShared) : EwShared :=
  if g.alive then g else { alive := true, liveCount := g.liveCount + 1 }

/-- The assigned ids of a lifetime of submissions: fold receive_comments
enqueue loops over successive batches, consuming the uuid stream in order. -/
def lifetimeIds (uuid : Nat → String) : Nat → List (List Comment) → List String
  | _, [] => []
  | pos, b :: bs => (assignIds uuid pos b).2 ++ lifetimeIds uuid (pos + b.length) bs

/-- Total number of comments over a lifetime of batches. -/
def batchesLen (bs : List (List Comment)) : Nat := (bs.map List.length).sum

/-- The collaborator-supplied payload of a comment, everything except the id
assigned at enqueue. -/
def payloadOf (c : Comment) : String × String × String × String :=
  (c.url, c.ai_comment, c.title, c.subreddit)

/-- A well-formed sample comment whose URL carries a comments segment. -/
def sampleComment : Comment :=
  { url := "https://www.reddit.com/r/test/comments/ab12/post", ai_comment := "hello",
    title := "a title", subreddit := "test", id := "aaaa1111" }

/-- A second well-formed sample comment. -/
def sampleComment2 : Comment :=
  { url := "https://www.reddit.com/r/test/comments/cd34/post", ai_comment := "there",
    title := "b title", subreddit := "test", id := "bbbb2222" }

/-- A malformed sample comment: its destination url is empty. -/
def emptyUrlComment : Comment :=
  { url := "", ai_comment := "hello", title := "t", subreddit := "s", id := "cccc3333" }

/-- The module-level initial state of app.py: empty queue, empty history,
zero counters, nothing posting, empty session, wait_range 4..6. -/
def initState : ServerState :=
  { comment_queue := [], posting_history := [], total_received := 0, total_success := 0,
    total_fail := 0, currently_posting := none, cookies := [], csrf_token := "",
    wait_range := { min_wait := 4, max_wait := 6 } }

/-- Helper: the serialized lifecycle reaches only the initial state or the
one-live-worker state. -/
theorem ensureAtomic_iterate (n : Nat) :
    ensureAtomic^[n] { alive := false, liveCount := 0 } =
      if n = 0 then { alive := false, liveCount := 0 } else { alive := true, liveCount := 1 } := by
  induction n with
  | zero => rfl
  | succ n ih =>
    rw [Function.iterate_succ_apply', ih]
    by_cases hn : n = 0 <;> simp [hn, ensureAtomic]

/-- C1. The code side of the claim, at the failing input: _ensure_worker on
an idle server raises worker_running to True; no statement of app.py ever
resets it to False, so once a Worker is started the break test of the idle
branch is False on every pass and the Worker loops (sleeping one second per
pass) forever instead of exiting; the exit test would fire on an empty queue
only if the flag were cleared. -/
theorem worker_never_exits_while_flag_set :
    (ensure_worker { worker_alive := false, worker_running := false }).worker_running = true
    ∧ (∀ n : Nat, workerIdleRun true n = false)
    ∧ workerIdleCheck [] false = true := by
  refine ⟨rfl, ?_, rfl⟩
  intro n
  induction n with
  | zero => rfl
  | succ n ih => simpa [workerIdleRun, workerIdleCheck] using ih

/-- C2 counterexample. The body of _ensure_worker holds no lock, so its
aliveness check and its spawn interleave: with both request threads checking
before either spawns, both observe no live worker and both spawn one — the
schedule T1-check, T2-check, T1-spawn, T2-spawn ends with two live Worker
threads, refuting that concurrent calls keep at most one live Worker. -/
theorem ensure_worker_race_two_workers :
    (ewRun [true, false, true, false] ewInit).shared.liveCount = 2 := by decide

/-- C2 amended. When _ensure_worker calls do not interleave (each call runs
as one atomic step), the lifecycle is idempotent: any number of serialized
calls from the initial state leaves at most one live Worker, and a call that
observes a live worker changes nothing. -/
theorem ensure_worker_serialized_idempotent :
    (∀ n : Nat, (ensureAtomic^[n] { alive := false, liveCount := 0 }).liveCount ≤ 1)
    ∧ (∀ g : EwShared, g.alive = true → ensureAtomic g = g) := by
  constructor
  · intro n
    rw [ensureAtomic_iterate]
    by_cases hn : n = 0 <;> simp [hn]
  · intro g hg
    simp [ensureAtomic, hg]

/-- C2 amended witness: two serialized calls leave one live worker, and a
further call on the resulting live state is a no-op. -/
theorem ensure_worker_serialized_idempotent_witness :
    (ensureAtomic^[2] { alive := false, liveCount := 0 }).liveCount ≤ 1
    ∧ ensureAtomic { alive := true, liveCount := 1 } = { alive := true, liveCount := 1 } :=
  ⟨ensure_worker_serialized_idempotent.1 2,
   ensure_worker_serialized_idempotent.2 { alive := true, liveCount := 1 } rfl⟩

/-- C3. The keepalive (Drain-Now) retry loop invokes the executor at most 3
times per dequeued task and stops at the first success; failing twice then
succeeding on the third call gives a final success with exactly 3
invocations, the success recorded in the bounded history and total_success
bumped; failing all three gives a final failure with exactly 3 invocations,
recorded and counted in total_fail. -/
theorem keepalive_retry_policy (c : Comment) (net : Nat → Bool) :
    (keepaliveRetry c net).2 ≤ 3
    ∧ (keepaliveAttempt c net 1 = true → keepaliveRetry c net = (true, 1))
    ∧ (keepaliveAttempt c net 1 = false → keepaliveAttempt c net 2 = true →
        keepaliveRetry c net = (true, 2))
    ∧ (keepaliveAttempt c net 1 = false → keepaliveAttempt c net 2 = false →
        keepaliveAttempt c net 3 = true →
        keepaliveRetry c net = (true, 3)
        ∧ ∀ (s : ServerState) (t : Nat),
            (keepaliveProcessOne s c net t).2 = (true, 3)
            ∧ (keepaliveProcessOne s c net t).1.posting_history
                = recordResult s.posting_history
                    { id := c.id, subreddit := c.subreddit, title := c.title.take 100,
                      success := true, posted_at := t }
            ∧ (keepaliveProcessOne s c net t).1.total_success = s.total_success + 1)
    ∧ (keepaliveAttempt c net 1 = false → keepaliveAttempt c net 2 = false →
        keepaliveAttempt c net 3 = false →
        keepaliveRetry c net = (false, 3)
        ∧ ∀ (s : ServerState) (t : Nat),
            (keepaliveProcessOne s c net t).2 = (false, 3)
            ∧ (keepaliveProcessOne s c net t).1.posting_history
                = recordResult s.posting_history
                    { id := c.id, subreddit := c.subreddit, title := c.title.take 100,
                      success := false, posted_at := t }
            ∧ (keepaliveProcessOne s c net t).1.total_fail = s.total_fail + 1) := by
  have hr : List.range' 1 3 = [1, 2, 3] := rfl
  by_cases h1 : keepaliveAttempt c net 1
    <;> by_cases h2 : keepaliveAttempt c net 2
    <;> by_cases h3 : keepaliveAttempt c net 3
    <;> simp [keepaliveRetry, hr, retryAux, keepaliveProcessOne, h1, h2, h3]

/-- C3 witness: a well-formed comment whose HTTP oracle fails on the first
two attempts and succeeds on the third takes exactly 3 executor invocations
and ends in success. -/
theorem keepalive_retry_policy_witness :
    keepaliveAttempt sampleComment (fun a => 3 ≤ a) 1 = false
    ∧ keepaliveAttempt sampleComment (fun a => 3 ≤ a) 2 = false
    ∧ keepaliveAttempt sampleComment (fun a => 3 ≤ a) 3 = true
    ∧ keepaliveRetry sampleComment (fun a => 3 ≤ a) = (true, 3) := by
  have h1 : keepaliveAttempt sampleComment (fun a => 3 ≤ a) 1 = false := by decide
  have h2 : keepaliveAttempt sampleComment (fun a => 3 ≤ a) 2 = false := by decide
  have h3 : keepaliveAttempt sampleComment (fun a => 3 ≤ a) 3 = true := by decide
  exact ⟨h1, h2, h3,
    ((keepalive_retry_policy sampleComment (fun a => 3 ≤ a)).2.2.2.1 h1 h2 h3).1⟩

/-- Helper: folding the history update from an empty history keeps exactly
the most recent MAX_HISTORY records, in completion order. -/
theorem foldl_recordResult (rs : List ResultRecord) :
    List.foldl recordResult [] rs = rs.drop (rs.length - MAX_HISTORY) := by
  have hM : MAX_HISTORY = 500 := rfl
  induction rs using List.reverseRecOn with
  | nil => rfl
  | append_singleton l a ih =>
    rw [List.foldl_append, List.foldl_cons, List.foldl_nil, ih]
    have hlen1 : (l ++ [a]).length = l.length + 1 := by simp
    by_cases hn : l.length < 500
    · have h1 : l.length - MAX_HISTORY = 0 := by omega
      rw [h1, List.drop_zero]
      simp only [recordResult]
      have h3 : ¬ MAX_HISTORY < (l ++ [a]).length := by rw [hlen1]; omega
      rw [if_neg h3]
      have h2 : (l ++ [a]).length - MAX_HISTORY = 0 := by rw [hlen1]; omega
      rw [h2, List.drop_zero]
    · push_neg at hn
      simp only [recordResult]
      have hdl : (List.drop (l.length - MAX_HISTORY) l).length = MAX_HISTORY := by
        rw [List.length_drop]; omega
      have hcond : MAX_HISTORY < (List.drop (l.length - MAX_HISTORY) l ++ [a]).length := by
        rw [List.length_append, hdl]; simp only [List.length_cons, List.length_nil]; omega
      rw [if_pos hcond]
      rw [← List.drop_one, List.drop_append_of_le_length (by rw [hdl]; omega : 1 ≤ (List.drop (l.length - MAX_HISTORY) l).length)]
      rw [List.drop_drop]
      rw [List.drop_append_of_le_length (by rw [hlen1]; omega : (l ++ [a]).length - MAX_HISTORY ≤ l.length)]
      have hAB : l.length - MAX_HISTORY + 1 = (l ++ [a]).length - MAX_HISTORY := by
        rw [hlen1]; omega
      rw [hAB]

/-- C9. The bounded-history invariant of the update both consumers run under
history_lock: one completion starting under the bound stays under the bound;
a lifetime of completions from the empty history keeps exactly the most
recent MAX_HISTORY records in completion order (oldest evicted first), so
after MAX_HISTORY + k completions the length is MAX_HISTORY and the oldest k
records are gone. -/
theorem history_bound_fifo_eviction :
    (∀ (h : List ResultRecord) (r : ResultRecord),
        h.length ≤ MAX_HISTORY → (recordResult h r).length ≤ MAX_HISTORY)
    ∧ (∀ rs : List ResultRecord,
        List.foldl recordResult [] rs = rs.drop (rs.length - MAX_HISTORY))
    ∧ (∀ (rs : List ResultRecord) (k : Nat), rs.length = MAX_HISTORY + k →
        (List.foldl recordResult [] rs).length = MAX_HISTORY
        ∧ List.foldl recordResult [] rs = rs.drop k) := by
  have hM : MAX_HISTORY = 500 := rfl
  refine ⟨?_, foldl_recordResult, ?_⟩
  · intro h r hb
    simp only [recordResult]
    by_cases hc : MAX_HISTORY < (h ++ [r]).length
    · rw [if_pos hc, List.length_tail, List.length_append]
      simp only [List.length_cons, List.length_nil]
      omega
    · rw [if_neg hc]
      omega
  · intro rs k hk
    have he := foldl_recordResult rs
    have hd : rs.length - MAX_HISTORY = k := by omega
    rw [hd] at he
    refine ⟨?_, he⟩
    rw [he, List.length_drop]
    omega

/-- C9 witness: one completion on the empty history respects the bound. -/
theorem history_bound_fifo_eviction_witness :
    (recordResult [] { id := "aaaa1111", subreddit := "test", title := "a title",
                       success := true, posted_at := 0 }).length ≤ MAX_HISTORY :=
  history_bound_fifo_eviction.1 []
    { id := "aaaa1111", subreddit := "test", title := "a title",
      success := true, posted_at := 0 } (by decide)

/-- Helper: the ids the enqueue loop assigns are the 8-character truncations
of the uuid draws at consecutive stream positions. -/
theorem assignIds_snd_eq (uuid : Nat → String) (cs : List Comment) : ∀ pos : Nat,
    (assignIds uuid pos cs).2 = (List.range' pos cs.length).map (fun i => (uuid i).take 8) := by
  induction cs with
  | nil => intro pos; rfl
  | cons c cs ih =>
    intro pos
    simp only [assignIds, List.length_cons, List.range'_succ, List.map_cons]
    rw [ih (pos + 1)]

/-- Helper: tagging preserves the payloads and the order, the returned ids
are the ids of the tagged comments, one per comment. -/
theorem assignIds_facts (uuid : Nat → String) (cs : List Comment) : ∀ pos : Nat,
    ((assignIds uuid pos cs).1).map payloadOf = cs.map payloadOf
    ∧ (assignIds uuid pos cs).2 = ((assignIds uuid pos cs).1).map Comment.id
    ∧ (assignIds uuid pos cs).2.length = cs.length
    ∧ (assignIds uuid pos cs).1.length = cs.length := by
  induction cs with
  | nil => intro pos; exact ⟨rfl, rfl, rfl, rfl⟩
  | cons c cs ih =>
    intro pos
    have h := ih (pos + 1)
    simp only [assignIds, List.map_cons, List.length_cons, payloadOf]
    exact ⟨by rw [h.1.symm], by rw [h.2.1], by rw [h.2.2.1], by rw [h.2.2.2]⟩

/-- Helper: a lifetime of enqueue loops assigns exactly the truncations of
the uuid draws at consecutive stream positions. -/
theorem lifetimeIds_eq (uuid : Nat → String) (bs : List (List Comment)) : ∀ pos : Nat,
    lifetimeIds uuid pos bs =
      (List.range' pos (batchesLen bs)).map (fun i => (uuid i).take 8) := by
  induction bs with
  | nil => intro pos; rfl
  | cons b bs ih =>
    intro pos
    simp only [lifetimeIds, batchesLen, List.map_cons, List.sum_cons] at *
    rw [assignIds_snd_eq, ih (pos + b.length), ← List.map_append]
    refine congrArg (List.map _) ?_
    have hap := List.range'_append pos b.length ((bs.map List.length).sum) 1
    rw [Nat.one_mul] at hap
    rw [hap, Nat.add_comm ((bs.map List.length).sum) b.length]

/-- C4 counterexample. The ids are str(uuid.uuid4())[:8] with no collision
check, so a lifetime in which the random uuid stream repeats its first 8
characters assigns the same identifier twice: two singleton batches under a
constant uuid stream yield two equal ids, refuting lifetime uniqueness. -/
theorem assigned_ids_collision :
    ¬ (lifetimeIds (fun _ => "deadbeef-0000-4000-8000-000000000000") 0
        [[{ url := "u", ai_comment := "a", title := "t", subreddit := "s", id := "" }],
         [{ url := "u", ai_comment := "a", title := "t", subreddit := "s", id := "" }]]).Nodup := by
  decide

/-- C4 amended. The identifiers assigned over the store lifetime are exactly
the 8-character truncations of the consumed uuid draws, in order; they are
pairwise distinct whenever those truncated draws are pairwise distinct
(uuid4 makes a repeat unlikely but the code does not exclude it). -/
theorem assigned_ids_unique_of_distinct_draws (uuid : Nat → String)
    (bs : List (List Comment)) (pos : Nat) :
    lifetimeIds uuid pos bs = (List.range' pos (batchesLen bs)).map (fun i => (uuid i).take 8)
    ∧ (((List.range' pos (batchesLen bs)).map (fun i => (uuid i).take 8)).Nodup →
        (lifetimeIds uuid pos bs).Nodup) := by
  refine ⟨lifetimeIds_eq uuid bs pos, ?_⟩
  intro h
  rw [lifetimeIds_eq uuid bs pos]
  exact h

/-- C4 amended witness: with two distinct truncated draws, the two assigned
ids are distinct. -/
theorem assigned_ids_unique_of_distinct_draws_witness :
    ((List.range' 0 (batchesLen [[sampleComment], [sampleComment2]])).map
        (fun i => ((fun j : Nat => if j = 0 then "aaaa1111-x" else "bbbb2222-y") i).take 8)).Nodup
    ∧ (lifetimeIds (fun j : Nat => if j = 0 then "aaaa1111-x" else "bbbb2222-y") 0
        [[sampleComment], [sampleComment2]]).Nodup := by
  have h : ((List.range' 0 (batchesLen [[sampleComment], [sampleComment2]])).map
      (fun i => ((fun j : Nat => if j = 0 then "aaaa1111-x" else "bbbb2222-y") i).take 8)).Nodup := by
    decide
  exact ⟨h, (assigned_ids_unique_of_distinct_draws
    (fun j : Nat => if j = 0 then "aaaa1111-x" else "bbbb2222-y") [[sampleComment], [sampleComment2]] 0).2 h⟩

/-- C5. For a non-empty batch with credentials present, receive_comments
succeeds: it answers ok with exactly one id per comment in input order (the
ids of the tagged comments), appends all tagged comments to the queue tail
preserving the input payload order, and bumps total_received by the batch
size. -/
theorem receive_comments_enqueue_contract (s : ServerState) (req : CommentsRequest)
    (uuid : Nat → String) (pos : Nat)
    (hne : req.comments ≠ []) (hck : req.cookies ≠ []) (hct : req.csrf_token ≠ "") :
    (receive_comments s req uuid pos).2
      = .ok ((assignIds uuid pos req.comments).2,
             (s.comment_queue ++ (assignIds uuid pos req.comments).1).length)
    ∧ (assignIds uuid pos req.comments).2.length = req.comments.length
    ∧ (receive_comments s req uuid pos).1.comment_queue
        = s.comment_queue ++ (assignIds uuid pos req.comments).1
    ∧ ((assignIds uuid pos req.comments).1).map payloadOf = req.comments.map payloadOf
    ∧ (assignIds uuid pos req.comments).2
        = ((assignIds uuid pos req.comments).1).map Comment.id
    ∧ (receive_comments s req uuid pos).1.total_received
        = s.total_received + req.comments.length := by
  have h := assignIds_facts uuid req.comments pos
  have hcond : (req.cookies = [] || req.csrf_token = "") = false := by
    simp [hck, hct]
  simp only [receive_comments, if_neg hne, hcond, Bool.false_eq_true, if_false]
  exact ⟨by trivial, h.2.2.1, by trivial, h.1, h.2.1, by trivial⟩

/-- C5 witness: one well-formed comment with credentials enqueues and bumps
total_received from 0 to 1. -/
theorem receive_comments_enqueue_contract_witness :
    (receive_comments initState
      { comments := [sampleComment], cookies := [("session", "v")], csrf_token := "tok",
        min_wait := 0, max_wait := 0 } (fun _ => "deadbeef-0000") 0).1.total_received
      = initState.total_received + 1 :=
  (receive_comments_enqueue_contract initState
    { comments := [sampleComment], cookies := [("session", "v")], csrf_token := "tok",
      min_wait := 0, max_wait := 0 } (fun _ => "deadbeef-0000") 0
    (by decide) (by decide) (by decide)).2.2.2.2.2

/-- C6. receive_comments rejects with a 400 exactly when the batch is empty
or the credentials are incomplete (empty cookies dict or empty csrf token),
and a rejection leaves the whole state, in particular the pending queue,
untouched. -/
theorem receive_comments_validation (s : ServerState) (req : CommentsRequest)
    (uuid : Nat → String) (pos : Nat) :
    ((∃ e, (receive_comments s req uuid pos).2 = .error e) ↔
        (req.comments = [] ∨ req.cookies = [] ∨ req.csrf_token = ""))
    ∧ (∀ e, (receive_comments s req uuid pos).2 = .error e →
        (receive_comments s req uuid pos).1 = s) := by
  by_cases h1 : req.comments = []
  · simp [receive_comments, h1]
  · by_cases h2 : req.cookies = []
    · simp [receive_comments, h1, h2]
    · by_cases h3 : req.csrf_token = ""
      · simp [receive_comments, h1, h2, h3]
      · simp [receive_comments, h1, h2, h3]

/-- C6 witness: the empty batch is rejected. -/
theorem receive_comments_validation_witness :
    ∃ e, (receive_comments initState
      { comments := [], cookies := [("session", "v")], csrf_token := "tok",
        min_wait := 0, max_wait := 0 } (fun _ => "deadbeef-0000") 0).2 = .error e :=
  (receive_comments_validation initState
    { comments := [], cookies := [("session", "v")], csrf_token := "tok",
      min_wait := 0, max_wait := 0 } (fun _ => "deadbeef-0000") 0).1.mpr (Or.inl rfl)

/-- Helper: the Worker session posts the queued comments exactly in queue
order. -/
theorem workerDrainAux_trace (paramsAt : Nat → WaitRange) (net : Nat → Bool)
    (rand : Nat → ℚ) (clock : Nat → Nat) (q : List Comment) :
    ∀ (k : Nat) (is_first : Bool) (s : ServerState),
      ((workerDrainAux paramsAt net rand clock q k is_first s).2).map StepEvent.commentId
        = q.map Comment.id := by
  induction q with
  | nil => intro k is_first s; rfl
  | cons c q ih =>
    intro k is_first s
    simp only [workerDrainAux, List.map_cons]
    rw [ih]

/-- Helper: the keepalive drain posts the queued comments exactly in queue
order. -/
theorem keepaliveDrainAux_trace (netOf : Nat → Nat → Bool) (clock : Nat → Nat)
    (q : List Comment) :
    ∀ (k : Nat) (s : ServerState) (posted failed : Nat),
      (keepaliveDrainAux netOf clock q k s posted failed).2.1 = q.map Comment.id := by
  induction q with
  | nil => intro k s posted failed; rfl
  | cons c q ih =>
    intro k s posted failed
    simp only [keepaliveDrainAux, List.map_cons]
    rw [ih]

/-- Helper: the pacing sleep of the i-th task of a Worker session is absent
for the first task of the session and otherwise drawn from the wait range read at
that very iteration. -/
theorem workerDrainAux_preDelay (paramsAt : Nat → WaitRange) (net : Nat → Bool)
    (rand : Nat → ℚ) (clock : Nat → Nat) (q : List Comment) :
    ∀ (k : Nat) (is_first : Bool) (s : ServerState) (i : Nat) (e : StepEvent),
      ((workerDrainAux paramsAt net rand clock q k is_first s).2)[i]? = some e →
      e.preDelay = if i = 0 ∧ is_first = true then none
        else some (uniformDraw (rand (k + i)) (paramsAt (k + i)).min_wait
          (paramsAt (k + i)).max_wait) := by
  induction q with
  | nil =>
    intro k is_first s i e h
    simp [workerDrainAux] at h
  | cons c q ih =>
    intro k is_first s i e h
    cases i with
    | zero =>
      simp only [workerDrainAux, List.getElem?_cons_zero, Option.some.injEq] at h
      subst h
      by_cases hf : is_first = true <;> simp [hf, Nat.add_zero]
    | succ j =>
      simp only [workerDrainAux, List.getElem?_cons_succ] at h
      have hrec := ih (k + 1) false _ j e h
      simp only [Bool.false_eq_true, and_false, if_false] at hrec
      rw [hrec]
      have hkj : k + 1 + j = k + (j + 1) := by omega
      rw [hkj]
      simp

/-- C7. Both consumers serve the pending list strictly first-in-first-out:
the Worker session and the keepalive drain post the queued comments exactly
in queue order; in particular when the queue holds A somewhere before B, the
Worker posts A strictly before B; and the guarded popleft returns the head. -/
theorem fifo_consumption_order (paramsAt : Nat → WaitRange) (net : Nat → Bool)
    (rand : Nat → ℚ) (clock : Nat → Nat) (netOf : Nat → Nat → Bool) (s : ServerState)
    (pre mid rest : List Comment) (A B : Comment) :
    ((workerDrain paramsAt net rand clock s).2).map StepEvent.commentId
      = s.comment_queue.map Comment.id
    ∧ (keepaliveDrain netOf clock s).2.1 = s.comment_queue.map Comment.id
    ∧ (s.comment_queue = pre ++ A :: mid ++ B :: rest →
        ((workerDrain paramsAt net rand clock s).2).map StepEvent.commentId
          = pre.map Comment.id ++ A.id :: mid.map Comment.id ++ B.id :: rest.map Comment.id)
    ∧ dequeueOne (A :: mid) = (some A, mid) := by
  refine ⟨workerDrainAux_trace paramsAt net rand clock s.comment_queue 0 true s,
    keepaliveDrainAux_trace netOf clock s.comment_queue 0 s 0 0, ?_, rfl⟩
  intro hq
  rw [workerDrain, hq]
  rw [workerDrainAux_trace]
  simp

/-- C7 witness: with the queue holding exactly A then B, the Worker posts A
first and B second. -/
theorem fifo_consumption_order_witness :
    ((workerDrain (fun _ => { min_wait := 0, max_wait := 0 }) (fun _ => true) (fun _ => 0)
        (fun _ => 0)
        { initState with comment_queue := [sampleComment, sampleComment2] }).2).map
        StepEvent.commentId
      = [].map Comment.id ++ sampleComment.id :: [].map Comment.id
          ++ sampleComment2.id :: [].map Comment.id :=
  (fifo_consumption_order (fun _ => { min_wait := 0, max_wait := 0 }) (fun _ => true)
    (fun _ => 0) (fun _ => 0) (fun _ _ => true)
    { initState with comment_queue := [sampleComment, sampleComment2] }
    [] [] [] sampleComment sampleComment2).2.2.1 rfl

/-- C8. Worker pacing: a session over the queue emits one event per task;
the first task of the session is posted with no pacing sleep; every later
task at position k is preceded by exactly one sleep of
random.uniform(min_wait, max_wait) where the wait range is the one read at
iteration k (fresh, not cached at session start); the drawn delay lies in
the wait range whenever the unit draw lies in [0, 1] and the range is
ordered; and a 0..0 wait range forces a zero delay. -/
theorem worker_pacing (paramsAt : Nat → WaitRange) (net : Nat → Bool) (rand : Nat → ℚ)
    (clock : Nat → Nat) (s : ServerState) :
    ((workerDrain paramsAt net rand clock s).2).length = s.comment_queue.length
    ∧ (∀ e, ((workerDrain paramsAt net rand clock s).2)[0]? = some e → e.preDelay = none)
    ∧ (∀ k e, ((workerDrain paramsAt net rand clock s).2)[k]? = some e → 1 ≤ k →
        e.preDelay = some (uniformDraw (rand k) (paramsAt k).min_wait (paramsAt k).max_wait))
    ∧ (∀ k e, ((workerDrain paramsAt net rand clock s).2)[k]? = some e → 1 ≤ k →
        0 ≤ rand k → rand k ≤ 1 → (paramsAt k).min_wait ≤ (paramsAt k).max_wait →
        ∃ d, e.preDelay = some d ∧ (paramsAt k).min_wait ≤ d ∧ d ≤ (paramsAt k).max_wait)
    ∧ (∀ k e, ((workerDrain paramsAt net rand clock s).2)[k]? = some e → 1 ≤ k →
        (paramsAt k).min_wait = 0 → (paramsAt k).max_wait = 0 → e.preDelay = some 0) := by
  have hlen : ((workerDrain paramsAt net rand clock s).2).length = s.comment_queue.length := by
    have h := workerDrainAux_trace paramsAt net rand clock s.comment_queue 0 true s
    have := congrArg List.length h
    simpa [workerDrain] using this
  have hdel : ∀ k e, ((workerDrain paramsAt net rand clock s).2)[k]? = some e → 1 ≤ k →
      e.preDelay = some (uniformDraw (rand k) (paramsAt k).min_wait (paramsAt k).max_wait) := by
    intro k e h hk
    have := workerDrainAux_preDelay paramsAt net rand clock s.comment_queue 0 true s k e h
    rw [this]
    have hk0 : ¬ (k = 0 ∧ True) := by
      rintro ⟨h0, -⟩
      omega
    simp only [Nat.zero_add]
    simp [show ¬ k = 0 by omega]
  refine ⟨hlen, ?_, hdel, ?_, ?_⟩
  · intro e h
    have := workerDrainAux_preDelay paramsAt net rand clock s.comment_queue 0 true s 0 e h
    simpa using this
  · intro k e h hk hu0 hu1 hmm
    refine ⟨uniformDraw (rand k) (paramsAt k).min_wait (paramsAt k).max_wait,
      hdel k e h hk, ?_, ?_⟩
    · unfold uniformDraw
      nlinarith [mul_nonneg hu0 (by linarith : (0:ℚ) ≤ (paramsAt k).max_wait - (paramsAt k).min_wait)]
    · unfold uniformDraw
      nlinarith [mul_le_mul_of_nonneg_right hu1
        (by linarith : (0:ℚ) ≤ (paramsAt k).max_wait - (paramsAt k).min_wait)]
  · intro k e h hk h0 h1
    rw [hdel k e h hk, h0, h1]
    simp [uniformDraw]

/-- C8 witness: with a 0..0 wait range and two queued comments, the first
task has no pacing sleep and the second has a zero sleep. -/
theorem worker_pacing_witness :
    (((workerDrain (fun _ => { min_wait := 0, max_wait := 0 }) (fun _ => true)
        (fun _ => 0) (fun _ => 0)
        { initState with comment_queue := [sampleComment, sampleComment2] }).2)[0]?).map
        StepEvent.preDelay = some none
    ∧ (((workerDrain (fun _ => { min_wait := 0, max_wait := 0 }) (fun _ => true)
        (fun _ => 0) (fun _ => 0)
        { initState with comment_queue := [sampleComment, sampleComment2] }).2)[1]?).map
        StepEvent.preDelay = some (some 0) := by
  have h0 : (((workerDrain (fun _ => { min_wait := 0, max_wait := 0 }) (fun _ => true)
      (fun _ => 0) (fun _ => 0)
      { initState with comment_queue := [sampleComment, sampleComment2] }).2)[0]?).isSome
        = true := by decide
  have h1 : (((workerDrain (fun _ => { min_wait := 0, max_wait := 0 }) (fun _ => true)
      (fun _ => 0) (fun _ => 0)
      { initState with comment_queue := [sampleComment, sampleComment2] }).2)[1]?).isSome
        = true := by decide
  obtain ⟨e0, he0⟩ := Option.isSome_iff_exists.mp h0
  obtain ⟨e1, he1⟩ := Option.isSome_iff_exists.mp h1
  have p0 := (worker_pacing (fun _ => { min_wait := 0, max_wait := 0 }) (fun _ => true)
    (fun _ => 0) (fun _ => 0)
    { initState with comment_queue := [sampleComment, sampleComment2] }).2.1 e0 he0
  have p1 := (worker_pacing (fun _ => { min_wait := 0, max_wait := 0 }) (fun _ => true)
    (fun _ => 0) (fun _ => 0)
    { initState with comment_queue := [sampleComment, sampleComment2] }).2.2.2.2 1 e1 he1
    (by omega) rfl rfl
  rw [he0, he1]
  simp [p0, p1]

/-- C10. A task whose url or ai_comment is missing or empty is still
accepted at enqueue (validation only inspects the batch and the
credentials), but the executor returns failure for it without issuing any
HTTP request, so a Worker session over that single task records a failed
result, counts it in total_fail and leaves total_success unchanged. -/
theorem malformed_payload_always_fails (c : Comment)
    (hbad : c.url = "" ∨ c.ai_comment = "") (netResult : Bool)
    (paramsAt : Nat → WaitRange) (net : Nat → Bool) (rand : Nat → ℚ) (clock : Nat → Nat)
    (s : ServerState) (hq : s.comment_queue = [c])
    (req : CommentsRequest) (hreq : req.comments = [c])
    (hck : req.cookies ≠ []) (hct : req.csrf_token ≠ "") (uuid : Nat → String) (pos : Nat) :
    post_comment_to_reddit c netResult = { success := false, attempted := false }
    ∧ (workerDrain paramsAt net rand clock s).1.total_fail = s.total_fail + 1
    ∧ (workerDrain paramsAt net rand clock s).1.total_success = s.total_success
    ∧ (workerDrain paramsAt net rand clock s).2
        = [{ commentId := c.id, preDelay := none, success := false, attemptedPost := false }]
    ∧ (workerDrain paramsAt net rand clock s).1.posting_history
        = recordResult s.posting_history
            { id := c.id, subreddit := c.subreddit, title := c.title.take 100,
              success := false, posted_at := clock 0 }
    ∧ (∃ ids n, (receive_comments s req uuid pos).2 = .ok (ids, n)) := by
  have hpost : ∀ b : Bool, post_comment_to_reddit c b
      = { success := false, attempted := false } := by
    intro b
    rcases hbad with h | h <;> simp [post_comment_to_reddit, h]
  have hne : req.comments ≠ [] := by rw [hreq]; simp
  have hcond : (req.cookies = [] || req.csrf_token = "") = false := by simp [hck, hct]
  refine ⟨hpost netResult, ?_, ?_, ?_, ?_, ?_⟩
  · simp [workerDrain, hq, workerDrainAux, hpost (net 0)]
  · simp [workerDrain, hq, workerDrainAux, hpost (net 0)]
  · simp [workerDrain, hq, workerDrainAux, hpost (net 0)]
  · simp [workerDrain, hq, workerDrainAux, hpost (net 0)]
  · simp only [receive_comments, if_neg hne, hcond, Bool.false_eq_true, if_false]
    exact ⟨_, _, rfl⟩

/-- C10 witness: the empty-url sample comment is rejected by the executor
without any HTTP attempt and ends a one-task Worker session with one
failure. -/
theorem malformed_payload_always_fails_witness :
    post_comment_to_reddit emptyUrlComment true
      = { success := false, attempted := false }
    ∧ (workerDrain (fun _ => { min_wait := 0, max_wait := 0 }) (fun _ => true) (fun _ => 0)
        (fun _ => 0) { initState with comment_queue := [emptyUrlComment] }).1.total_fail
      = ({ initState with comment_queue := [emptyUrlComment] } : ServerState).total_fail + 1 := by
  have h := malformed_payload_always_fails emptyUrlComment (Or.inl rfl) true
    (fun _ => { min_wait := 0, max_wait := 0 }) (fun _ => true) (fun _ => 0) (fun _ => 0)
    { initState with comment_queue := [emptyUrlComment] } rfl
    { comments := [emptyUrlComment], cookies := [("session", "v")], csrf_token := "tok",
      min_wait := 0, max_wait := 0 } rfl (by decide) (by decide)
    (fun _ => "deadbeef-0000") 0
  exact ⟨h.1, h.2.1⟩
